import Mathlib

/-!
Shallow embedding of the placeholder-substitution and PDF-conversion core of
the sistema-clinica repository (src/core/document_generator.py,
src/core/html_generator.py, src/core/pdf_converter.py, src/core/html_to_pdf.py).

Strings are modelled as `List Char`.  Python `str.replace`, `str.strip`,
`str.upper` and the title-stripping regular expression of
`document_generator.generate_document` are given executable definitions that
follow the CPython semantics on the inputs the program handles (ASCII
whitespace and ASCII case folding; `str.replace` scans left to right and
replaces non-overlapping occurrences).
-/

/-- Character-list form of a string literal. -/

def s2l (s : String) : List Char := s.data

/-- Whitespace class used by the model of Python `str.strip`. -/

def isPySpace (c : Char) : Bool :=
  c = ' ' || c = '\t' || c = '\n' || c = '\r' || c = '\x0b' || c = '\x0c'

/-- Model of Python `str.strip()`: drop leading and trailing whitespace. -/

def pyStrip (s : List Char) : List Char :=
  ((s.dropWhile isPySpace).reverse.dropWhile isPySpace).reverse

/-- ASCII upper-casing of one character. -/

def asciiUpper (c : Char) : Char :=
  if 'a' ≤ c ∧ c ≤ 'z' then Char.ofNat (c.toNat - 32) else c

/-- ASCII lower-casing of one character. -/

def asciiLower (c : Char) : Char :=
  if 'A' ≤ c ∧ c ≤ 'Z' then Char.ofNat (c.toNat + 32) else c

/-- Model of Python `str.upper()` (ASCII letters). -/

def pyUpper (s : List Char) : List Char := s.map asciiUpper

/-- Left-to-right scan of Python `str.replace` for a nonempty pattern
`k :: ks`: whenever the pattern is a prefix of the remaining input the
replacement `val` is emitted and the matched characters are skipped,
otherwise one character is copied.  The extra `Nat` argument is structural
fuel (the scan consumes at least one character per step, so `s.length`
suffices); it makes the definition kernel-computable. -/

def replaceCore (k : Char) (ks val : List Char) : Nat → List Char → List Char
  | 0, s => s
  | _ + 1, [] => []
  | fuel + 1, c :: rest =>
    if (k :: ks).isPrefixOf (c :: rest) then
      val ++ replaceCore k ks val fuel (rest.drop ks.length)
    else
      c :: replaceCore k ks val fuel rest

/-- Model of Python `str.replace(key, val)`.  For the empty pattern Python
inserts `val` before every character and at the end. -/

def pyReplace (s key val : List Char) : List Char :=
  match key with
  | [] => val ++ s.foldr (fun c acc => c :: (val ++ acc)) []
  | k :: ks => replaceCore k ks val s.length s

/-- Model of the Python substring test `chave in s` (true for the empty
string, as in Python). -/

def contemSub (chave : List Char) : List Char → Bool
  | [] => chave.isEmpty
  | c :: rest => chave.isPrefixOf (c :: rest) || contemSub chave rest

/-- A replacement map entry: placeholder key and replacement value. -/

abbrev KV := List Char × List Char

/-- The sort key of document_generator.py line 142:
`sorted(replacements.items(), key=lambda kv: -len(kv[0]))`, i.e. entry `a`
comes no later than entry `b` when `b`'s key is no longer than `a`'s. -/

def chaveMaior (a b : KV) : Prop := b.1.length ≤ a.1.length

instance : DecidableRel chaveMaior := fun a b =>
  inferInstanceAs (Decidable (b.1.length ≤ a.1.length))

instance : IsTotal KV chaveMaior :=
  ⟨fun a b => Nat.le_total b.1.length a.1.length⟩

instance : IsTrans KV chaveMaior :=
  ⟨fun _ _ _ h1 h2 => Nat.le_trans h2 h1⟩

/-- The stably length-descending-sorted item list that the Word substitution
loop iterates over (document_generator.py line 142).  Python `sorted` is a
stable sort, so a stable insertion sort computes the same list. -/

def substituicoes_ordenadas (repl : List KV) : List KV :=
  List.insertionSort chaveMaior repl

/-- The substitution loop of document_generator.py lines 140-143: apply
`str.replace` for each entry of the length-ordered item list in turn. -/

def aplicar_substituicoes (repl : List KV) (t : List Char) : List Char :=
  (substituicoes_ordenadas repl).foldl (fun acc kv => pyReplace acc kv.1 kv.2) t

/-! ## Word document model (python-docx objects used by substituir_placeholders) -/

/-- A formatting run: a span of text plus an opaque formatting identifier
(standing for font, bold, size...).  `fmt = 0` is the identifier of the
default formatting that `paragraph.add_run` gives a fresh run. -/

structure Run where
  text : List Char
  fmt : Nat

deriving DecidableEq, Repr

/-- A paragraph is a sequence of formatting runs. -/

structure Paragraph where
  runs : List Run

deriving DecidableEq, Repr

/-- `paragraph.text` of python-docx: concatenation of the run texts. -/

def Paragraph.text (p : Paragraph) : List Char := (p.runs.map Run.text).flatten

/-- A table cell (python-docx `cell.paragraphs`). -/

structure Cell where
  paragraphs : List Paragraph

deriving DecidableEq, Repr

/-- A table: rows, each a list of cells. -/

structure Table where
  rows : List (List Cell)

deriving DecidableEq, Repr

/-- A Word document: top-level paragraphs and tables. -/

structure Docx where
  paragraphs : List Paragraph
  tables : List Table

deriving DecidableEq, Repr

/-- document_generator.py lines 124-155 (`substituir_em_paragrafo`):
reconstruct the paragraph's full text, check whether any key occurs, apply
the replacements on the full text, and if the text changed clear every run
and store the whole new text in the first run (or in a fresh run when the
paragraph had none). -/

def substituir_em_paragrafo (replacements : List KV) (p : Paragraph) : Paragraph :=
  let texto_completo := p.text
  let precisa_substituir := replacements.any fun kv => contemSub kv.1 texto_completo
  if precisa_substituir then
    let texto_novo := aplicar_substituicoes replacements texto_completo
    if texto_novo = texto_completo then p
    else
      match p.runs with
      | [] => ⟨[⟨texto_novo, 0⟩]⟩
      | r :: rs => ⟨⟨texto_novo, r.fmt⟩ :: rs.map fun x => ⟨[], x.fmt⟩⟩
  else p

/-- document_generator.py lines 157-166: run the paragraph substitution over
the document's paragraphs and over every paragraph of every table cell. -/

def substituir_placeholders (replacements : List KV) (d : Docx) : Docx :=
  ⟨d.paragraphs.map (substituir_em_paragrafo replacements),
   d.tables.map fun t =>
     ⟨t.rows.map fun row =>
       row.map fun c => ⟨c.paragraphs.map (substituir_em_paragrafo replacements)⟩⟩⟩

def c3_repl : List KV := [(s2l "{a}", s2l "X")]

def c3_par : Paragraph := ⟨[⟨s2l "{a}", 5⟩, ⟨s2l "cauda", 7⟩]⟩

def c10_par : Paragraph := ⟨[⟨s2l "sem chave", 2⟩, ⟨s2l " alguma", 4⟩]⟩

/-! ## Claim C4: idempotence of substituir_placeholders -/

def c4_repl : List KV := [(s2l "{a}", s2l "x{a}")]

def c4_doc : Docx := ⟨[⟨[⟨s2l "{a}", 1⟩]⟩], []⟩

def c4_doc2 : Docx := ⟨[⟨[⟨s2l "ola", 1⟩]⟩], [⟨[[⟨[⟨[⟨s2l "mundo", 2⟩]⟩]⟩]]⟩]⟩

/-! ## Data records, validation and the two replacement maps -/

/-- An input record: association list from field name to (stringified)
value, modelling the Python `data` dict. -/

abbrev Registro := List (List Char × List Char)

/-- First-match association lookup, modelling `dict` access. -/

def lookupRec (data : Registro) (k : List Char) : Option (List Char) :=
  match data with
  | [] => none
  | (k', v) :: resto => if k' = k then some v else lookupRec resto k

/-- Model of `str(data.get(campo, ""))` for string-valued records. -/

def getStr (data : Registro) (k : List Char) : List Char :=
  (lookupRec data k).getD []

/-- The required-field list of validar_dados_documento
(document_generator.py lines 89-93). -/

def campos_obrigatorios : List (List Char) :=
  [s2l "nome_paciente", s2l "tipo_doc_paciente", s2l "numero_doc_paciente",
   s2l "data_atestado", s2l "qtd_dias_atestado", s2l "codigo_cid",
   s2l "nome_medico", s2l "tipo_registro_medico", s2l "crm__medico",
   s2l "uf_crm_medico"]

/-- One step of the validation loop: `campo in data` and
`str(data[campo]).strip()` truthy. -/

def campo_presente (data : Registro) (c : List Char) : Bool :=
  match lookupRec data c with
  | none => false
  | some v => !(pyStrip v).isEmpty

/-- Model of Python `int(s)` on strings: optional surrounding whitespace,
optional sign, at least one digit (digit-group underscores are not used by
this program's inputs and are not modelled). -/

def parseIntPy (s : List Char) : Option Int :=
  let t := pyStrip s
  let natDe : List Char → Option Nat := fun ds =>
    if ds ≠ [] ∧ ds.all Char.isDigit then
      some (ds.foldl (fun a c => a * 10 + (c.toNat - 48)) 0)
    else none
  match t with
  | '+' :: resto => (natDe resto).map fun n => (n : Int)
  | '-' :: resto => (natDe resto).map fun n => -(n : Int)
  | resto => (natDe resto).map fun n => (n : Int)

/-- document_generator.py lines 79-110 (`validar_dados_documento`): every
required field present and non-blank, and `qtd_dias_atestado` a positive
integer. -/

def validar_dados_documento (data : Registro) : Bool :=
  campos_obrigatorios.all (campo_presente data) &&
    (match parseIntPy (getStr data (s2l "qtd_dias_atestado")) with
     | some n => decide (0 < n)
     | none => false)

/-- The alternatives of the title regex of document_generator.py line 241
`(?i)^\s*(dr\.?|dra\.?|dr\(a\)\.?|dr\(a\)|prof\.?|profa\.?|sr\.?|sra\.?|med\.?\s*)\s*`,
in the regex's left-to-right order (each may be followed by an optional
dot). -/

def titulos : List (List Char) :=
  [s2l "dr", s2l "dra", s2l "dr(a)", s2l "dr(a)", s2l "prof", s2l "profa",
   s2l "sr", s2l "sra", s2l "med"]

/-- Number of leading whitespace characters (the greedy `\s*`). -/

def wsCount (s : List Char) : Nat := (s.takeWhile isPySpace).length

/-- Length matched by one regex alternative at the start of `s`: the
case-insensitive literal plus an optional following dot (Python regex
alternation is leftmost-first, not longest-match). -/

def altLen (alt s : List Char) : Option Nat :=
  if alt.isPrefixOf (s.map asciiLower) then
    some (alt.length +
      (match s.drop alt.length with
       | '.' :: _ => 1
       | _ => 0))
  else none

/-- First alternative that matches, in regex order. -/

def primeiroTitulo : List (List Char) → List Char → Option Nat
  | [], _ => none
  | alt :: resto, s =>
    match altLen alt s with
    | some n => some n
    | none => primeiroTitulo resto s

/-- Model of `re.sub(r'(?i)^\s*(dr\.?|...)\s*', '', s)`: if, after the
leading whitespace, some alternative matches (leftmost-first), the
whitespace, the matched title and the following whitespace are removed;
otherwise the string is unchanged.  This reproduces the regex faithfully,
including its quirks (for `"Dra. X"` the first alternative `dr\.?` matches
just `"Dr"`, leaving `"a. X"`). -/

def remover_titulo (s : List Char) : List Char :=
  let i := wsCount s
  let resto := s.drop i
  match primeiroTitulo titulos resto with
  | none => s
  | some n =>
    let resto2 := resto.drop n
    resto2.drop (wsCount resto2)

/-- Model of `' '.join(partes)`. -/

def joinSpace : List (List Char) → List Char
  | [] => []
  | [x] => x
  | x :: y :: resto => x ++ ' ' :: joinSpace (y :: resto)

/-- The DOCX replacement map built by generate_document
(document_generator.py lines 233-277), in dict insertion order.  `hoje`
stands for `datetime.now().strftime("%d/%m/%Y")`. -/

def docx_replacements (data : Registro) (hoje : List Char) : List KV :=
  let nome_med := pyStrip (getStr data (s2l "nome_medico"))
  let tipo_reg := pyStrip (getStr data (s2l "tipo_registro_medico"))
  let crm_num := pyStrip (getStr data (s2l "crm__medico"))
  let uf_crm := pyStrip (getStr data (s2l "uf_crm_medico"))
  let nome_sem_titulo := pyStrip (remover_titulo nome_med)
  let partes_registro :=
    (if tipo_reg ≠ [] then [tipo_reg] else []) ++
    (if crm_num ≠ [] then [crm_num] else [])
  let registro_formatado_sem_uf := joinSpace partes_registro
  let registro_formatado_completo :=
    if uf_crm ≠ [] ∧ registro_formatado_sem_uf ≠ [] then
      registro_formatado_sem_uf ++ '-' :: uf_crm
    else registro_formatado_sem_uf
  let medico_completo :=
    pyStrip (nome_sem_titulo ++ ' ' :: registro_formatado_completo)
  [(s2l "{nome_paciente}", pyStrip (getStr data (s2l "nome_paciente"))),
   (s2l "{documento_paciente_formatado}",
     pyUpper (getStr data (s2l "tipo_doc_paciente")) ++ s2l " nº: " ++
       getStr data (s2l "numero_doc_paciente")),
   (s2l "{data_atestado}", pyStrip (getStr data (s2l "data_atestado"))),
   (s2l "{qtd_dias_atestado}", getStr data (s2l "qtd_dias_atestado")),
   (s2l "\x7bcódigo_cid\x7d", pyStrip (getStr data (s2l "codigo_cid"))),
   (s2l "{cargo_paciente}", pyStrip (getStr data (s2l "cargo_paciente"))),
   (s2l "{empresa_paciente}", pyStrip (getStr data (s2l "empresa_paciente"))),
   (s2l "___/___/____", hoje),
   (s2l "{nome_medico}{crm__medico}-{uf_crm_medico}", medico_completo),
   (s2l "{nome_medico}", nome_sem_titulo),
   (s2l "{crm__medico}",
     if registro_formatado_sem_uf ≠ [] then registro_formatado_sem_uf
     else crm_num),
   (s2l "{tipo_registro_medico}", tipo_reg),
   (s2l "{uf_crm_medico}", uf_crm)]

/-- Fixed error message of the validation failure path of generate_document
(the DocumentGenerationError raised at line 220 is re-wrapped by the
catch-all at line 304). -/

def msg_dados_invalidos : List Char :=
  s2l "Erro ao gerar documento: Dados de entrada inválidos ou incompletos"

/-- Pure core of generate_document (document_generator.py lines 201-304):
validate, then substitute the replacement map into the template document.
File-system effects (template existence check, output naming, saving,
auto-open) are outside the pure model; the `Except` result makes explicit
that on a validation error no substituted document is produced. -/

def generate_document (template : Docx) (data : Registro) (hoje : List Char) :
    Except (List Char) Docx :=
  if validar_dados_documento data then
    .ok (substituir_placeholders (docx_replacements data hoje) template)
  else
    .error msg_dados_invalidos

/-! ## html_generator.py: date formatting and the HTML replacement map -/

/-- Gregorian leap-year rule, as used by Python's datetime validation. -/

def bissexto (y : Nat) : Bool := y % 4 = 0 && (y % 100 ≠ 0 || y % 400 = 0)

/-- Days in a month, for datetime's day-range validation. -/

def diasNoMes (y m : Nat) : Nat :=
  if m = 2 then (if bissexto y then 29 else 28)
  else if m = 4 ∨ m = 6 ∨ m = 9 ∨ m = 11 then 30
  else 31

/-- A parsed calendar date. -/

structure Data where
  ano : Nat
  mes : Nat
  dia : Nat

deriving DecidableEq, Repr

/-- One numeric field of a strptime format: read the leading digit run
(at most `cap` digits — strptime's `%Y` allows 1-4 digits, `%m`/`%d`/`%H`
etc. 1-2).  The fields of the six formats used here are all separated by
non-digit literals, so the greedy regex semantics reduce to taking the whole
run. -/

def campoNum (cap : Nat) (s : List Char) : Option (Nat × List Char) :=
  let corrida := s.takeWhile Char.isDigit
  if corrida.length = 0 ∨ cap < corrida.length then none
  else some (corrida.foldl (fun a c => a * 10 + (c.toNat - 48)) 0,
             s.drop corrida.length)

/-- A token of a strptime format string: a year field, a two-digit-capped
field, or a literal character. -/

inductive TokFmt
  | ano
  | dois
  | lit (c : Char)

deriving DecidableEq, Repr

/-- Run a strptime format over the input, collecting the numeric fields in
order; the whole input must be consumed. -/

def parseCampos : List TokFmt → List Char → Option (List Nat)
  | [], [] => some []
  | [], _ :: _ => none
  | .ano :: resto, s =>
    (campoNum 4 s).bind fun (n, s') => (parseCampos resto s').map (n :: ·)
  | .dois :: resto, s =>
    (campoNum 2 s).bind fun (n, s') => (parseCampos resto s').map (n :: ·)
  | .lit c :: resto, s =>
    match s with
    | c' :: s' => if c' = c then parseCampos resto s' else none
    | [] => none

/-- Datetime range validation: year ≥ 1, month 1-12, day valid for the
month. -/

def dataValida (y m d : Nat) : Option Data :=
  if 1 ≤ y ∧ y ≤ 9999 ∧ 1 ≤ m ∧ m ≤ 12 ∧ 1 ≤ d ∧ d ≤ diasNoMes y m then
    some ⟨y, m, d⟩
  else none

/-- Time-of-day range validation (the parsed time is discarded). -/

def horaValida (h mi s : Nat) : Bool := h ≤ 23 && mi ≤ 59 && s ≤ 59

/-- One strptime attempt for the date-only formats `%Y-%m-%d` and
`%Y/%m/%d`. -/

def tentarYmd (sep : Char) (s : List Char) : Option Data :=
  match parseCampos [.ano, .lit sep, .dois, .lit sep, .dois] s with
  | some [y, m, d] => dataValida y m d
  | _ => none

/-- One strptime attempt for `%Y-%m-%dT%H:%M:%S` / `%Y-%m-%d %H:%M:%S`. -/

def tentarYmdHms (sepHora : Char) (s : List Char) : Option Data :=
  match parseCampos [.ano, .lit '-', .dois, .lit '-', .dois, .lit sepHora,
                     .dois, .lit ':', .dois, .lit ':', .dois] s with
  | some [y, m, d, h, mi, seg] =>
    if horaValida h mi seg then dataValida y m d else none
  | _ => none

/-- One strptime attempt for `%d-%m-%Y` / `%d.%m.%Y`. -/

def tentarDmy (sep : Char) (s : List Char) : Option Data :=
  match parseCampos [.dois, .lit sep, .dois, .lit sep, .ano] s with
  | some [d, m, y] => dataValida y m d
  | _ => none

/-- The regex `^\d\x7b2\x7d/\d\x7b2\x7d/\d\x7b4\x7d$` of
html_generator.py line 57. -/

def ehDataBR : List Char → Bool
  | [a, b, '/', c, d, '/', e, f, g, h] =>
    a.isDigit && b.isDigit && c.isDigit && d.isDigit &&
      e.isDigit && f.isDigit && g.isDigit && h.isDigit
  | _ => false

/-- Decimal digits of `n`, zero-padded on the left to `largura` places
(strftime `%d`/`%m`/`%Y` output). -/

def padNum (largura n : Nat) : List Char :=
  let ds := (Nat.toDigits 10 n)
  List.replicate (largura - ds.length) '0' ++ ds

/-- html_generator.py lines 39-74 (`_format_date_brazil`), string branch:
empty input gives `""`; an input already in `DD/MM/YYYY` is returned
stripped; otherwise the six strptime formats are tried in order and the
first that parses is re-rendered as `DD/MM/YYYY`; if none parses the
stripped input is returned unchanged. -/

def format_date_brazil (s : List Char) : List Char :=
  if s = [] then []
  else
    let t := pyStrip s
    if ehDataBR t then t
    else
      match tentarYmd '-' t with
      | some d => padNum 2 d.dia ++ '/' :: padNum 2 d.mes ++ '/' :: padNum 4 d.ano
      | none =>
      match tentarYmdHms 'T' t with
      | some d => padNum 2 d.dia ++ '/' :: padNum 2 d.mes ++ '/' :: padNum 4 d.ano
      | none =>
      match tentarYmdHms ' ' t with
      | some d => padNum 2 d.dia ++ '/' :: padNum 2 d.mes ++ '/' :: padNum 4 d.ano
      | none =>
      match tentarYmd '/' t with
      | some d => padNum 2 d.dia ++ '/' :: padNum 2 d.mes ++ '/' :: padNum 4 d.ano
      | none =>
      match tentarDmy '-' t with
      | some d => padNum 2 d.dia ++ '/' :: padNum 2 d.mes ++ '/' :: padNum 4 d.ano
      | none =>
      match tentarDmy '.' t with
      | some d => padNum 2 d.dia ++ '/' :: padNum 2 d.mes ++ '/' :: padNum 4 d.ano
      | none => t

/-- The HTML replacement map built by generate_html (html_generator.py lines
932-945), in dict insertion order.  `logo_base64` stands for the embedded
logo data and `data_extenso` for the current date written out in full; both
are environment inputs of the function. -/

def html_replacements (data : Registro) (logo_base64 data_extenso : List Char) :
    List KV :=
  let nome_medico_completo := pyStrip (getStr data (s2l "nome_medico"))
  let tipo_registro := pyStrip (getStr data (s2l "tipo_registro_medico"))
  let crm_numero := pyStrip (getStr data (s2l "crm__medico"))
  let uf_crm := pyStrip (getStr data (s2l "uf_crm_medico"))
  let crm_formatado :=
    if tipo_registro ≠ [] then tipo_registro ++ ' ' :: crm_numero
    else crm_numero
  [(s2l "{logo_base64}", logo_base64),
   (s2l "{nome_paciente}", pyStrip (getStr data (s2l "nome_paciente"))),
   (s2l "{documento_paciente_formatado}",
     pyUpper (getStr data (s2l "tipo_doc_paciente")) ++ s2l " nº: " ++
       getStr data (s2l "numero_doc_paciente")),
   (s2l "{data_atestado}", format_date_brazil (getStr data (s2l "data_atestado"))),
   (s2l "{qtd_dias_atestado}", getStr data (s2l "qtd_dias_atestado")),
   (s2l "{codigo_cid}", pyStrip (getStr data (s2l "codigo_cid"))),
   (s2l "{cargo_paciente}", pyStrip (getStr data (s2l "cargo_paciente"))),
   (s2l "{empresa_paciente}", pyStrip (getStr data (s2l "empresa_paciente"))),
   (s2l "{nome_medico}", nome_medico_completo),
   (s2l "{crm_medico}", crm_formatado),
   (s2l "{uf_crm_medico}", uf_crm),
   (s2l "Brasília, ___/___/____", data_extenso)]

/-- The substitution loop of generate_html (html_generator.py lines
948-950): plain `str.replace` for each entry in the map's insertion order
(no sorting).  `template` stands for the fixed string returned by
`get_html_template()`. -/

def generate_html (data : Registro) (logo_base64 data_extenso template : List Char) :
    List Char :=
  (html_replacements data logo_base64 data_extenso).foldl
    (fun acc kv => pyReplace acc kv.1 kv.2) template

/-! ## PDF conversion backends (html_to_pdf.py, pdf_converter.py) -/

/-- Environment of one WeasyPrint conversion attempt
(convert_html_to_pdf_weasyprint): whether the library can be imported,
whether `write_pdf` raised (with which message), and whether the output file
exists afterwards. -/

structure AmbienteWeasy where
  instalado : Bool
  falha_execucao : Option (List Char)
  saida_existe : Bool

deriving DecidableEq, Repr

/-- html_to_pdf.py lines 27-67 (`convert_html_to_pdf_weasyprint`).  The
in-try `PDFConversionError("PDF não foi gerado")` raised when the output is
missing is re-wrapped by the catch-all into `"Erro WeasyPrint: ..."`. -/

def convert_html_to_pdf_weasyprint (env : AmbienteWeasy) (output_path : List Char) :
    Except (List Char) (List Char) :=
  if env.instalado = false then
    .error (s2l "WeasyPrint não instalado. Instale com: pip install weasyprint")
  else
    match env.falha_execucao with
    | some e => .error (s2l "Erro WeasyPrint: " ++ e)
    | none =>
      if env.saida_existe then .ok output_path
      else .error (s2l "Erro WeasyPrint: PDF não foi gerado")

/-- Environment of one xhtml2pdf conversion attempt: import success, an
exception from file or `pisa.CreatePDF`, the `pisa_status.err` flag and
output-file existence. -/

structure AmbienteXhtml where
  instalado : Bool
  falha_execucao : Option (List Char)
  pisa_err : Bool
  saida_existe : Bool

deriving DecidableEq, Repr

/-- html_to_pdf.py lines 121-162 (`convert_html_to_pdf_xhtml2pdf`): success
requires `pisa_status.err` false and the output file present. -/

def convert_html_to_pdf_xhtml2pdf (env : AmbienteXhtml) (output_path : List Char) :
    Except (List Char) (List Char) :=
  if env.instalado = false then
    .error (s2l "xhtml2pdf não instalado. Instale com: pip install xhtml2pdf")
  else
    match env.falha_execucao with
    | some e => .error (s2l "Erro xhtml2pdf: " ++ e)
    | none =>
      if env.pisa_err || !env.saida_existe then
        .error (s2l "Erro xhtml2pdf: Erro ao gerar PDF com xhtml2pdf")
      else .ok output_path

/-- Outcome of the LibreOffice subprocess call. -/

inductive ExecucaoLO
  | ok
  | estouro_tempo
  | erro_processo (stderr : List Char)
  | nao_encontrado

deriving DecidableEq, Repr

/-- Environment of one LibreOffice conversion attempt: input existence, the
subprocess outcome, and output-file existence after the run. -/

structure AmbienteLO where
  docx_existe : Bool
  execucao : ExecucaoLO
  saida_existe : Bool

deriving DecidableEq, Repr

/-- pdf_converter.py lines 28-118 (`convert_docx_to_pdf_libreoffice`).  The
in-try `PDFConversionError` for a missing output is re-wrapped by the
catch-all into `"Erro inesperado: ..."`. -/

def convert_docx_to_pdf_libreoffice (env : AmbienteLO) (docx_path pdf_path : List Char) :
    Except (List Char) (List Char) :=
  if env.docx_existe = false then
    .error (s2l "Arquivo DOCX não encontrado: " ++ docx_path)
  else
    match env.execucao with
    | .ok =>
      if env.saida_existe then .ok pdf_path
      else .error (s2l "Erro inesperado: PDF não foi gerado em: " ++ pdf_path)
    | .estouro_tempo => .error (s2l "Timeout na conversão para PDF (>30s)")
    | .erro_processo stderr => .error (s2l "Erro na conversão: " ++ stderr)
    | .nao_encontrado =>
      .error (s2l "LibreOffice não encontrado. Instale com: apt-get install libreoffice (Linux) ou baixe de https://www.libreoffice.org/download/download/")

deriving instance DecidableEq for Except

/-- Result of a fallback chain: the overall outcome plus the names of the
backends that were attempted, in order. -/

structure ResultadoCadeia where
  resultado : Except (List Char) (List Char)
  tentados : List (List Char)

deriving DecidableEq, Repr

/-- Model of `'\n'.join(errors)`. -/

def joinNl : List (List Char) → List Char
  | [] => []
  | [x] => x
  | x :: y :: resto => x ++ '\n' :: joinNl (y :: resto)

/-- The loop of convert_html_to_pdf (html_to_pdf.py lines 207-214): try each
backend in order; a `PDFConversionError` is recorded as `"name: msg"` and
the next backend is tried; the first success stops the loop; `agg`
aggregates the error list when every backend failed. -/

def tentar_conversores (agg : List (List Char) → List Char) :
    List (List Char × Except (List Char) (List Char)) →
    List (List Char) → List (List Char) → ResultadoCadeia
  | [], erros, tent => ⟨.error (agg erros), tent⟩
  | (nome, r) :: resto, erros, tent =>
    match r with
    | .ok p => ⟨.ok p, tent ++ [nome]⟩
    | .error e =>
      tentar_conversores agg resto (erros ++ [nome ++ s2l ": " ++ e]) (tent ++ [nome])

/-- The aggregated all-backends-failed message of convert_html_to_pdf
(html_to_pdf.py lines 216-224). -/

def agg_html (erros : List (List Char)) : List Char :=
  s2l "Nenhum conversor PDF disponível. Instale pelo menos um:\n" ++
  s2l "• WeasyPrint (recomendado): pip install weasyprint\n" ++
  s2l "• pdfkit: pip install pdfkit + wkhtmltopdf\n" ++
  s2l "• xhtml2pdf: pip install xhtml2pdf\n\n" ++
  s2l "Erros:\n" ++ joinNl erros

/-- html_to_pdf.py lines 165-224 (`convert_html_to_pdf` with `method=None`):
WeasyPrint, then pdfkit, then xhtml2pdf.  The three arguments are the
results of the respective backend calls on the given content and output
path. -/

def convert_html_to_pdf (w p x : Except (List Char) (List Char)) : ResultadoCadeia :=
  tentar_conversores agg_html
    [(s2l "WeasyPrint", w), (s2l "pdfkit", p), (s2l "xhtml2pdf", x)] [] []

/-- The aggregated all-backends-failed message of convert_docx_to_pdf
(pdf_converter.py lines 201-203). -/

def agg_docx (erros : List (List Char)) : List Char :=
  s2l "Nenhum conversor PDF disponível. Erros:\n" ++ joinNl erros

/-- pdf_converter.py lines 169-203 (`convert_docx_to_pdf`): LibreOffice
first; docx2pdf is attempted second only when `platform.system()` is
Windows.  `lo` and `d2` are the results of the two backend calls. -/

def convert_docx_to_pdf (isWindows : Bool)
    (lo d2 : Except (List Char) (List Char)) : ResultadoCadeia :=
  match lo with
  | .ok p => ⟨.ok p, [s2l "LibreOffice"]⟩
  | .error e1 =>
    let erros1 := [s2l "LibreOffice: " ++ e1]
    if isWindows then
      match d2 with
      | .ok p => ⟨.ok p, [s2l "LibreOffice", s2l "docx2pdf"]⟩
      | .error e2 =>
        ⟨.error (agg_docx (erros1 ++ [s2l "docx2pdf: " ++ e2])),
         [s2l "LibreOffice", s2l "docx2pdf"]⟩
    else ⟨.error (agg_docx erros1), [s2l "LibreOffice"]⟩

def c2_dados : Registro :=
  [(s2l "nome_paciente", s2l "{qtd_dias_atestado}"),
   (s2l "qtd_dias_atestado", s2l "3")]

def envW0 : AmbienteWeasy := ⟨true, none, true⟩

def envX0 : AmbienteXhtml := ⟨true, none, false, true⟩

def envL0 : AmbienteLO := ⟨true, .ok, true⟩

def c9_dados : Registro :=
  [(s2l "nome_paciente", s2l "Ana Lima"),
   (s2l "tipo_doc_paciente", s2l "cpf"),
   (s2l "numero_doc_paciente", s2l "123"),
   (s2l "data_atestado", s2l "01/02/2024"),
   (s2l "qtd_dias_atestado", s2l "3"),
   (s2l "codigo_cid", s2l "Z00"),
   (s2l "nome_medico", s2l "Dr. Maria Santos"),
   (s2l "tipo_registro_medico", s2l "CRM"),
   (s2l "crm__medico", s2l "12345"),
   (s2l "uf_crm_medico", s2l "DF")]

example : pyReplace (s2l "aabb") (s2l "ab") [] = s2l "ab" := by decide

example : pyReplace (s2l "x{a}y{a}") (s2l "{a}") (s2l "Z") = s2l "xZyZ" := by decide

example :
    aplicar_substituicoes [(s2l "{a}", s2l "1"), (s2l "{a}b", s2l "2")] (s2l "x{a}by")
      = s2l "x2y" := by decide

example :
    (substituir_em_paragrafo [(s2l "{ab}", s2l "V")]
      ⟨[⟨s2l "x\x7ba", 3⟩, ⟨s2l "b\x7dy", 8⟩]⟩).text = s2l "xVy" := by decide

example :
    substituir_em_paragrafo [(s2l "{ab}", s2l "V")]
      ⟨[⟨s2l "x\x7ba", 3⟩, ⟨s2l "b\x7dy", 8⟩]⟩
      = ⟨[⟨s2l "xVy", 3⟩, ⟨[], 8⟩]⟩ := by decide

/-! ## Basic lemmas about the substitution primitives -/

lemma contemSub_nil_left (s : List Char) : contemSub [] s = true := by
  cases s <;> simp [contemSub, List.isPrefixOf]

lemma replaceCore_eq_self {k : Char} {ks val s : List Char}
    (h : contemSub (k :: ks) s = false) :
    ∀ fuel, replaceCore k ks val fuel s = s := by
  induction s with
  | nil => intro fuel; cases fuel <;> rfl
  | cons c rest ih =>
    intro fuel
    cases fuel with
    | zero => rfl
    | succ n =>
      simp only [contemSub, Bool.or_eq_false_iff] at h
      simp only [replaceCore, h.1, if_false, Bool.false_eq_true]
      rw [ih h.2]

/-- A `str.replace` whose pattern does not occur leaves the text unchanged. -/

lemma pyReplace_eq_self {key s val : List Char} (h : contemSub key s = false) :
    pyReplace s key val = s := by
  cases key with
  | nil => rw [contemSub_nil_left] at h; exact absurd h (by simp)
  | cons k ks => exact replaceCore_eq_self h _

lemma foldl_pyReplace_eq_self {t : List Char} {L : List KV}
    (h : ∀ kv ∈ L, contemSub kv.1 t = false) :
    L.foldl (fun acc kv => pyReplace acc kv.1 kv.2) t = t := by
  induction L with
  | nil => rfl
  | cons kv resto ih =>
    have h1 : contemSub kv.1 t = false := h kv (List.mem_cons_self _ _)
    simp only [List.foldl_cons, pyReplace_eq_self h1]
    exact ih fun x hx => h x (List.mem_cons_of_mem _ hx)

/-- If no key of the map occurs in the text, the whole substitution pass is
the identity on the text. -/

lemma aplicar_substituicoes_eq_self {repl : List KV} {t : List Char}
    (h : ∀ kv ∈ repl, contemSub kv.1 t = false) :
    aplicar_substituicoes repl t = t := by
  unfold aplicar_substituicoes substituicoes_ordenadas
  exact foldl_pyReplace_eq_self fun kv hkv =>
    h kv ((List.mem_insertionSort chaveMaior).mp hkv)

lemma texto_runs_limpos (rs : List Run) :
    ((rs.map fun x => Run.mk [] x.fmt).map Run.text).flatten = ([] : List Char) := by
  induction rs with
  | nil => rfl
  | cons r resto ih => simp [ih]

/-- Helper shared by the frame theorems: a paragraph in whose text no key
occurs is returned untouched. -/

lemma substituir_em_paragrafo_sem_chave {repl : List KV} {p : Paragraph}
    (h : ∀ kv ∈ repl, contemSub kv.1 p.text = false) :
    substituir_em_paragrafo repl p = p := by
  have hA : (repl.any fun kv => contemSub kv.1 p.text) = false :=
    List.any_eq_false.mpr (by simpa using h)
  unfold substituir_em_paragrafo
  simp [hA]

lemma map_id_de_membros {α : Type} {f : α → α} {l : List α}
    (h : ∀ x ∈ l, f x = x) : l.map f = l := by
  induction l with
  | nil => rfl
  | cons x resto ih =>
    simp only [List.map_cons, h x (List.mem_cons_self _ _)]
    rw [ih fun y hy => h y (List.mem_cons_of_mem _ hy)]

/-! ## Claim C1: substitution operates on the whole reconstructed text -/

/-- C1.  For every paragraph (body or table cell) and replacement map, after
`substituir_em_paragrafo` the paragraph's logical text (the in-order
concatenation of its run texts) is exactly the replacement pass applied to
the whole reconstructed text.  In particular the result depends only on the
logical text, so placeholder keys split across run boundaries are resolved
exactly as keys contained in a single run. -/

theorem substituicao_texto_integral (repl : List KV) (p : Paragraph) :
    (substituir_em_paragrafo repl p).text = aplicar_substituicoes repl p.text := by
  unfold substituir_em_paragrafo
  cases hA : (repl.any fun kv => contemSub kv.1 p.text) with
  | false =>
    simp only [hA, Bool.false_eq_true, if_false]
    exact (aplicar_substituicoes_eq_self (by simpa using List.any_eq_false.mp hA)).symm
  | true =>
    simp only [hA, if_true]
    by_cases hEq : aplicar_substituicoes repl p.text = p.text
    · simp [hEq]
    · simp only [hEq, if_false]
      cases p with
      | mk runs =>
        cases runs with
        | nil => simp [Paragraph.text]
        | cons r rs => simp [Paragraph.text, texto_runs_limpos]

/-! ## Claim C3: the substituted text lands in the first original run -/

/-- C3.  When the substitution pass changes a paragraph's logical text, the
whole substituted text is stored in the first original run — which keeps its
formatting identifier — every other run keeps its formatting but gets the
empty text, and a paragraph without runs receives one fresh run (default
formatting) holding the substituted text. -/

theorem texto_no_primeiro_run (repl : List KV) (p : Paragraph)
    (h : aplicar_substituicoes repl p.text ≠ p.text) :
    substituir_em_paragrafo repl p =
      match p.runs with
      | [] => ⟨[⟨aplicar_substituicoes repl p.text, 0⟩]⟩
      | r :: rs => ⟨⟨aplicar_substituicoes repl p.text, r.fmt⟩ ::
          rs.map fun x => ⟨[], x.fmt⟩⟩ := by
  have hA : (repl.any fun kv => contemSub kv.1 p.text) = true := by
    cases hA : (repl.any fun kv => contemSub kv.1 p.text) with
    | true => rfl
    | false =>
      exact absurd (aplicar_substituicoes_eq_self
        (by simpa using List.any_eq_false.mp hA)) h
  unfold substituir_em_paragrafo
  simp only [hA, if_true, h, if_false]

/-- Witness for C3 at a concrete paragraph whose text changes. -/

theorem texto_no_primeiro_run_witness :
    aplicar_substituicoes c3_repl c3_par.text ≠ c3_par.text ∧
    substituir_em_paragrafo c3_repl c3_par =
      match c3_par.runs with
      | [] => ⟨[⟨aplicar_substituicoes c3_repl c3_par.text, 0⟩]⟩
      | r :: rs => ⟨⟨aplicar_substituicoes c3_repl c3_par.text, r.fmt⟩ ::
          rs.map fun x => ⟨[], x.fmt⟩⟩ :=
  ⟨by decide, texto_no_primeiro_run c3_repl c3_par (by decide)⟩

/-! ## Claim C10: frame preservation on non-matching paragraphs -/

/-- C10.  A paragraph whose logical text contains no key of the replacement
map is returned completely unchanged: same run count, same run texts, same
formatting identifiers. -/

theorem paragrafo_sem_chave_inalterado (repl : List KV) (p : Paragraph)
    (h : ∀ kv ∈ repl, contemSub kv.1 p.text = false) :
    substituir_em_paragrafo repl p = p :=
  substituir_em_paragrafo_sem_chave h

/-- Witness for C10 at a concrete non-matching paragraph. -/

theorem paragrafo_sem_chave_inalterado_witness :
    substituir_em_paragrafo c3_repl c10_par = c10_par :=
  paragrafo_sem_chave_inalterado c3_repl c10_par (by decide)

/-- Counterexample to C4 as stated: when a replacement value reintroduces a
key (here `\x7ba\x7d ↦ x\x7ba\x7d`), a second application of
`substituir_placeholders` changes the document again, so the function is not
idempotent for every document and replacement map. -/

theorem substituicao_nao_idempotente :
    substituir_placeholders c4_repl (substituir_placeholders c4_repl c4_doc) ≠
      substituir_placeholders c4_repl c4_doc := by decide

/-- C4 as amended.  Applying `substituir_placeholders` to a document none of
whose paragraph texts (body or table cells) contains any key of the map is a
no-op; hence a second application is a no-op exactly when the first one
leaves no key occurrence in the document. -/

theorem segunda_passada_sem_chaves_noop (repl : List KV) (d : Docx)
    (h1 : ∀ p ∈ d.paragraphs, ∀ kv ∈ repl, contemSub kv.1 p.text = false)
    (h2 : ∀ t ∈ d.tables, ∀ row ∈ t.rows, ∀ c ∈ row, ∀ p ∈ c.paragraphs,
      ∀ kv ∈ repl, contemSub kv.1 p.text = false) :
    substituir_placeholders repl d = d := by
  cases d with
  | mk paras tables =>
    unfold substituir_placeholders
    simp only [Docx.mk.injEq]
    constructor
    · exact map_id_de_membros fun p hp =>
        substituir_em_paragrafo_sem_chave (h1 p hp)
    · refine map_id_de_membros fun t ht => ?_
      cases t with
      | mk rows =>
        simp only [Table.mk.injEq]
        refine map_id_de_membros fun row hrow => ?_
        refine map_id_de_membros fun c hc => ?_
        cases c with
        | mk paras2 =>
          simp only [Cell.mk.injEq]
          exact map_id_de_membros fun p hp =>
            substituir_em_paragrafo_sem_chave (h2 ⟨rows⟩ ht row hrow ⟨paras2⟩ hc p hp)

/-- Witness for the amended C4 at a concrete key-free document. -/

theorem segunda_passada_sem_chaves_noop_witness :
    substituir_placeholders c4_repl c4_doc2 = c4_doc2 :=
  segunda_passada_sem_chaves_noop c4_repl c4_doc2 (by decide) (by decide)

example : remover_titulo (s2l "Dr. Maria Santos") = s2l "Maria Santos" := by decide

example : remover_titulo (s2l "Dra. Ana") = s2l "a. Ana" := by decide

example : remover_titulo (s2l "Prof. Jonas") = s2l "Jonas" := by decide

example : format_date_brazil (s2l "09/11/2025") = s2l "09/11/2025" := by decide

example : format_date_brazil (s2l "2025-11-09") = s2l "09/11/2025" := by decide

example : format_date_brazil (s2l "2025-02-30") = s2l "2025-02-30" := by decide

/-! ## Claim C2: order in which overlapping keys are applied -/

/-- C2 as amended.  The Word path really does apply the replacement map in
descending key-length order: the item list `substituir_em_paragrafo` folds
over is sorted so that every earlier key is at least as long as every later
key, and it is a permutation of the replacement map; `aplicar_substituicoes`
is by definition the fold of `str.replace` over exactly that sorted list.
The HTML path applies the map in insertion order instead (see the
counterexample). -/

theorem ordem_de_substituicao (repl : List KV) (t : List Char) :
    List.Sorted chaveMaior (substituicoes_ordenadas repl) ∧
    (substituicoes_ordenadas repl).Perm repl ∧
    aplicar_substituicoes repl t =
      (substituicoes_ordenadas repl).foldl (fun acc kv => pyReplace acc kv.1 kv.2) t :=
  ⟨List.sorted_insertionSort chaveMaior repl,
   List.perm_insertionSort chaveMaior repl, rfl⟩

/-- Counterexample to C2 as stated: `generate_html` substitutes in the
map's insertion order, not in descending key-length order.  On a template
containing `\x7bnome_paciente\x7d` with a patient name that spells the
longer key `\x7bqtd_dias_atestado\x7d`, the insertion-order pass yields a
different text than the length-descending pass used by the Word path. -/

theorem html_nao_ordena_por_tamanho :
    generate_html c2_dados (s2l "L") (s2l "D") (s2l "X{nome_paciente}Y") ≠
      aplicar_substituicoes (html_replacements c2_dados (s2l "L") (s2l "D"))
        (s2l "X{nome_paciente}Y") := by decide

/-! ## Claim C5: missing required field fails the whole generation -/

lemma lookupRec_cons_of_ne {k' v k : List Char} {rest : Registro} (h : ¬ k' = k) :
    lookupRec ((k', v) :: rest) k = lookupRec rest k := by simp [lookupRec, h]

lemma lookupRec_cons_self {k v : List Char} {rest : Registro} :
    lookupRec ((k, v) :: rest) k = some v := by simp [lookupRec]

/-- C5 as amended.  A required field that is absent or blank after stripping
makes `validar_dados_documento` fail, and `generate_document` then fails with
the fixed message `"Erro ao gerar documento: Dados de entrada inválidos ou
incompletos"` — the missing field's name is only logged, it does not appear
in the raised error message — and no substituted document is produced. -/

theorem campo_faltando_falha_geracao (data : Registro) (template : Docx)
    (hoje c : List Char) (hc : c ∈ campos_obrigatorios)
    (h : campo_presente data c = false) :
    validar_dados_documento data = false ∧
    generate_document template data hoje = .error msg_dados_invalidos := by
  have hall : campos_obrigatorios.all (campo_presente data) = false := by
    cases hx : campos_obrigatorios.all (campo_presente data) with
    | false => rfl
    | true =>
      have := List.all_eq_true.mp hx c hc
      rw [h] at this
      cases this
  have hv : validar_dados_documento data = false := by
    unfold validar_dados_documento
    rw [hall, Bool.false_and]
  refine ⟨hv, ?_⟩
  unfold generate_document
  rw [hv]
  rfl

/-- Witness for the amended C5: the empty record misses every field. -/

theorem campo_faltando_falha_geracao_witness :
    validar_dados_documento [] = false ∧
    generate_document ⟨[], []⟩ [] [] = .error msg_dados_invalidos :=
  campo_faltando_falha_geracao [] ⟨[], []⟩ [] (s2l "nome_paciente")
    (by decide) (by decide)

/-- Counterexample to C5 as stated: for a record missing `nome_paciente`
the generation fails, but the error message does not contain the missing
field's name (it is the fixed generic message). -/

theorem erro_validacao_sem_nome_do_campo :
    generate_document ⟨[], []⟩ [] [] = .error msg_dados_invalidos ∧
    contemSub (s2l "nome_paciente") msg_dados_invalidos = false := by decide

/-! ## Claim C6: fallback order of the PDF conversion backends -/

/-- C6 as amended.  `convert_html_to_pdf` (no explicit method) tries
WeasyPrint, then pdfkit, then xhtml2pdf: the first success is returned and
no later backend is attempted, each failure is recorded and the next backend
tried.  `convert_docx_to_pdf` tries LibreOffice first and attempts docx2pdf
second only on Windows; on any other platform LibreOffice is the only
backend attempted. -/

theorem ordem_dos_conversores (pdf e1 e2 e3 : List Char)
    (r2 r3 d2 : Except (List Char) (List Char)) :
    convert_html_to_pdf (.ok pdf) r2 r3 = ⟨.ok pdf, [s2l "WeasyPrint"]⟩ ∧
    convert_html_to_pdf (.error e1) (.ok pdf) r3 =
      ⟨.ok pdf, [s2l "WeasyPrint", s2l "pdfkit"]⟩ ∧
    convert_html_to_pdf (.error e1) (.error e2) (.ok pdf) =
      ⟨.ok pdf, [s2l "WeasyPrint", s2l "pdfkit", s2l "xhtml2pdf"]⟩ ∧
    convert_html_to_pdf (.error e1) (.error e2) (.error e3) =
      ⟨.error (agg_html [s2l "WeasyPrint: " ++ e1, s2l "pdfkit: " ++ e2,
          s2l "xhtml2pdf: " ++ e3]),
       [s2l "WeasyPrint", s2l "pdfkit", s2l "xhtml2pdf"]⟩ ∧
    convert_docx_to_pdf true (.ok pdf) d2 = ⟨.ok pdf, [s2l "LibreOffice"]⟩ ∧
    convert_docx_to_pdf false (.ok pdf) d2 = ⟨.ok pdf, [s2l "LibreOffice"]⟩ ∧
    convert_docx_to_pdf true (.error e1) (.ok pdf) =
      ⟨.ok pdf, [s2l "LibreOffice", s2l "docx2pdf"]⟩ ∧
    convert_docx_to_pdf true (.error e1) (.error e2) =
      ⟨.error (agg_docx [s2l "LibreOffice: " ++ e1, s2l "docx2pdf: " ++ e2]),
       [s2l "LibreOffice", s2l "docx2pdf"]⟩ ∧
    convert_docx_to_pdf false (.error e1) d2 =
      ⟨.error (agg_docx [s2l "LibreOffice: " ++ e1]), [s2l "LibreOffice"]⟩ :=
  ⟨rfl, rfl, rfl, rfl, rfl, rfl, rfl, rfl, rfl⟩

/-- Counterexample to C6 as stated: off Windows, after LibreOffice fails,
docx2pdf is not attempted second — the operation fails at once even though
the docx2pdf call would have succeeded. -/

theorem docx2pdf_nao_tentado_fora_do_windows :
    (convert_docx_to_pdf false (.error (s2l "falhou"))
        (.ok (s2l "saida.pdf"))).tentados = [s2l "LibreOffice"] ∧
    (convert_docx_to_pdf false (.error (s2l "falhou"))
        (.ok (s2l "saida.pdf"))).resultado =
      .error (agg_docx [s2l "LibreOffice: falhou"]) :=
  ⟨rfl, rfl⟩

/-! ## Claim C7: content of the aggregated all-backends-failed error -/

lemma infix_por_partes {x m : List Char} (pre suf : List Char)
    (h : pre ++ (x ++ suf) = m) : x <:+: m :=
  ⟨pre, suf, by rw [List.append_assoc]; exact h⟩

lemma remedios_no_agg_html (errs : List (List Char)) :
    s2l "pip install weasyprint" <:+: agg_html errs ∧
    s2l "pip install pdfkit" <:+: agg_html errs ∧
    s2l "pip install xhtml2pdf" <:+: agg_html errs := by
  have h2 : s2l "• WeasyPrint (recomendado): pip install weasyprint\n" <:+: agg_html errs :=
    infix_por_partes (s2l "Nenhum conversor PDF disponível. Instale pelo menos um:\n")
      (s2l "• pdfkit: pip install pdfkit + wkhtmltopdf\n" ++
        (s2l "• xhtml2pdf: pip install xhtml2pdf\n\n" ++
          (s2l "Erros:\n" ++ joinNl errs)))
      (by simp [agg_html, List.append_assoc])
  have h3 : s2l "• pdfkit: pip install pdfkit + wkhtmltopdf\n" <:+: agg_html errs :=
    infix_por_partes (s2l "Nenhum conversor PDF disponível. Instale pelo menos um:\n" ++
        s2l "• WeasyPrint (recomendado): pip install weasyprint\n")
      (s2l "• xhtml2pdf: pip install xhtml2pdf\n\n" ++
        (s2l "Erros:\n" ++ joinNl errs))
      (by simp [agg_html, List.append_assoc])
  have h4 : s2l "• xhtml2pdf: pip install xhtml2pdf\n\n" <:+: agg_html errs :=
    infix_por_partes (s2l "Nenhum conversor PDF disponível. Instale pelo menos um:\n" ++
        (s2l "• WeasyPrint (recomendado): pip install weasyprint\n" ++
          s2l "• pdfkit: pip install pdfkit + wkhtmltopdf\n"))
      (s2l "Erros:\n" ++ joinNl errs)
      (by simp [agg_html, List.append_assoc])
  exact ⟨List.IsInfix.trans (by decide) h2,
         List.IsInfix.trans (by decide) h3,
         List.IsInfix.trans (by decide) h4⟩

/-- C7 as amended.  When every backend fails, `convert_html_to_pdf` raises a
single aggregated error that contains each backend's failure reason and an
installation remedy for each of the three backends; `convert_docx_to_pdf`'s
aggregated error contains each attempted backend's failure reason, but
carries an installation remedy only inside the individual failure messages
that happen to mention one (see the counterexample). -/

theorem erro_agregado_conteudo (e1 e2 e3 : List Char) :
    (convert_html_to_pdf (.error e1) (.error e2) (.error e3)).resultado =
      .error (agg_html [s2l "WeasyPrint: " ++ e1, s2l "pdfkit: " ++ e2,
        s2l "xhtml2pdf: " ++ e3]) ∧
    e1 <:+: agg_html [s2l "WeasyPrint: " ++ e1, s2l "pdfkit: " ++ e2,
        s2l "xhtml2pdf: " ++ e3] ∧
    e2 <:+: agg_html [s2l "WeasyPrint: " ++ e1, s2l "pdfkit: " ++ e2,
        s2l "xhtml2pdf: " ++ e3] ∧
    e3 <:+: agg_html [s2l "WeasyPrint: " ++ e1, s2l "pdfkit: " ++ e2,
        s2l "xhtml2pdf: " ++ e3] ∧
    s2l "pip install weasyprint" <:+: agg_html [s2l "WeasyPrint: " ++ e1,
        s2l "pdfkit: " ++ e2, s2l "xhtml2pdf: " ++ e3] ∧
    s2l "pip install pdfkit" <:+: agg_html [s2l "WeasyPrint: " ++ e1,
        s2l "pdfkit: " ++ e2, s2l "xhtml2pdf: " ++ e3] ∧
    s2l "pip install xhtml2pdf" <:+: agg_html [s2l "WeasyPrint: " ++ e1,
        s2l "pdfkit: " ++ e2, s2l "xhtml2pdf: " ++ e3] ∧
    (convert_docx_to_pdf true (.error e1) (.error e2)).resultado =
      .error (agg_docx [s2l "LibreOffice: " ++ e1, s2l "docx2pdf: " ++ e2]) ∧
    e1 <:+: agg_docx [s2l "LibreOffice: " ++ e1, s2l "docx2pdf: " ++ e2] ∧
    e2 <:+: agg_docx [s2l "LibreOffice: " ++ e1, s2l "docx2pdf: " ++ e2] := by
  refine ⟨rfl, ?_, ?_, ?_, (remedios_no_agg_html _).1, (remedios_no_agg_html _).2.1,
    (remedios_no_agg_html _).2.2, rfl, ?_, ?_⟩
  · exact infix_por_partes
      (s2l "Nenhum conversor PDF disponível. Instale pelo menos um:\n" ++
        (s2l "• WeasyPrint (recomendado): pip install weasyprint\n" ++
          (s2l "• pdfkit: pip install pdfkit + wkhtmltopdf\n" ++
            (s2l "• xhtml2pdf: pip install xhtml2pdf\n\n" ++
              (s2l "Erros:\n" ++ s2l "WeasyPrint: ")))))
      ('\n' :: ((s2l "pdfkit: " ++ e2) ++ '\n' :: (s2l "xhtml2pdf: " ++ e3)))
      (by simp [agg_html, joinNl, List.append_assoc])
  · exact infix_por_partes
      (s2l "Nenhum conversor PDF disponível. Instale pelo menos um:\n" ++
        (s2l "• WeasyPrint (recomendado): pip install weasyprint\n" ++
          (s2l "• pdfkit: pip install pdfkit + wkhtmltopdf\n" ++
            (s2l "• xhtml2pdf: pip install xhtml2pdf\n\n" ++
              (s2l "Erros:\n" ++
                ((s2l "WeasyPrint: " ++ e1) ++ '\n' :: s2l "pdfkit: "))))))
      ('\n' :: (s2l "xhtml2pdf: " ++ e3))
      (by simp [agg_html, joinNl, List.append_assoc])
  · exact infix_por_partes
      (s2l "Nenhum conversor PDF disponível. Instale pelo menos um:\n" ++
        (s2l "• WeasyPrint (recomendado): pip install weasyprint\n" ++
          (s2l "• pdfkit: pip install pdfkit + wkhtmltopdf\n" ++
            (s2l "• xhtml2pdf: pip install xhtml2pdf\n\n" ++
              (s2l "Erros:\n" ++
                ((s2l "WeasyPrint: " ++ e1) ++ '\n' ::
                  ((s2l "pdfkit: " ++ e2) ++ '\n' :: s2l "xhtml2pdf: ")))))))
      []
      (by simp [agg_html, joinNl, List.append_assoc])
  · exact infix_por_partes
      (s2l "Nenhum conversor PDF disponível. Erros:\n" ++ s2l "LibreOffice: ")
      ('\n' :: (s2l "docx2pdf: " ++ e2))
      (by simp [agg_docx, joinNl, List.append_assoc])
  · exact infix_por_partes
      (s2l "Nenhum conversor PDF disponível. Erros:\n" ++
        ((s2l "LibreOffice: " ++ e1) ++ '\n' :: s2l "docx2pdf: "))
      []
      (by simp [agg_docx, joinNl, List.append_assoc])

/-- Counterexample to C7 as stated: off Windows, when LibreOffice fails with
a timeout, the aggregated error of `convert_docx_to_pdf` carries the failure
reason but no installation remedy for the attempted backend (neither
"Instale" nor "install" occurs in the message). -/

theorem erro_agregado_docx_sem_remedio :
    (convert_docx_to_pdf false
      (convert_docx_to_pdf_libreoffice ⟨true, .estouro_tempo, true⟩
        (s2l "a.docx") (s2l "a.pdf"))
      (.error (s2l "irrelevante"))).resultado =
      .error (agg_docx [s2l "LibreOffice: Timeout na conversão para PDF (>30s)"]) ∧
    contemSub (s2l "Instale")
      (agg_docx [s2l "LibreOffice: Timeout na conversão para PDF (>30s)"]) = false ∧
    contemSub (s2l "install")
      (agg_docx [s2l "LibreOffice: Timeout na conversão para PDF (>30s)"]) = false := by
  decide

/-! ## Claim C8: a backend succeeds only when the output file exists -/

/-- C8.  Each conversion backend reports success only when the expected
output file exists after the run (and with no conversion error), and on
success it returns exactly the expected output path: WeasyPrint and
xhtml2pdf for HTML, LibreOffice for DOCX. -/

theorem sucesso_exige_saida_existente
    (envW : AmbienteWeasy) (envX : AmbienteXhtml) (envL : AmbienteLO)
    (saida docx pdf r : List Char) :
    (convert_html_to_pdf_weasyprint envW saida = .ok r →
      envW.saida_existe = true ∧ r = saida) ∧
    (convert_html_to_pdf_xhtml2pdf envX saida = .ok r →
      envX.saida_existe = true ∧ envX.pisa_err = false ∧ r = saida) ∧
    (convert_docx_to_pdf_libreoffice envL docx pdf = .ok r →
      envL.saida_existe = true ∧ r = pdf) := by
  obtain ⟨wi, wf, we⟩ := envW
  obtain ⟨xi, xf, xp, xe⟩ := envX
  obtain ⟨le, lx, ls⟩ := envL
  refine ⟨?_, ?_, ?_⟩
  · intro h
    cases wi <;> cases wf <;> cases we <;>
      simp_all [convert_html_to_pdf_weasyprint]
  · intro h
    cases xi <;> cases xf <;> cases xp <;> cases xe <;>
      simp_all [convert_html_to_pdf_xhtml2pdf]
  · intro h
    cases le <;> cases lx <;> cases ls <;>
      simp_all [convert_docx_to_pdf_libreoffice]

/-- Witness for C8 at concrete successful runs of all three backends. -/

theorem sucesso_exige_saida_existente_witness :
    (envW0.saida_existe = true ∧ s2l "o.pdf" = s2l "o.pdf") ∧
    (envX0.saida_existe = true ∧ envX0.pisa_err = false ∧ s2l "o.pdf" = s2l "o.pdf") ∧
    (envL0.saida_existe = true ∧ s2l "a.pdf" = s2l "a.pdf") :=
  have h := sucesso_exige_saida_existente envW0 envX0 envL0
    (s2l "o.pdf") (s2l "a.docx") (s2l "a.pdf") (s2l "o.pdf")
  ⟨h.1 (by decide), h.2.1 (by decide),
   (sucesso_exige_saida_existente envW0 envX0 envL0
     (s2l "o.pdf") (s2l "a.docx") (s2l "a.pdf") (s2l "a.pdf")).2.2 (by decide)⟩

/-! ## Claim C9: agreement of the Word and HTML replacement maps -/

lemma campo_nao_vazio {data : Registro} {c : List Char}
    (h : campo_presente data c = true) : pyStrip (getStr data c) ≠ [] := by
  unfold campo_presente at h
  cases hl : lookupRec data c with
  | none => rw [hl] at h; cases h
  | some v =>
    rw [hl] at h
    unfold getStr
    rw [hl]
    simp only [Bool.not_eq_eq_eq_not, Bool.not_true, Option.getD_some] at h ⊢
    intro hnil
    rw [hnil] at h
    cases h

/-- C9 as amended.  On every record that passes validation, the DOCX map of
generate_document and the HTML map of generate_html give the same
replacement text for the patient name, the formatted patient document, the
days of leave, the CID code, the registration state and the physician
registration.  (The physician name and the certificate date can differ:
the DOCX path strips title prefixes from the name and passes the date
through unformatted, while the HTML path keeps the full name and normalises
the date — see the counterexample.) -/

theorem campos_comuns_iguais (data : Registro) (hoje logo de : List Char)
    (h : validar_dados_documento data = true) :
    lookupRec (docx_replacements data hoje) (s2l "{nome_paciente}") =
      lookupRec (html_replacements data logo de) (s2l "{nome_paciente}") ∧
    lookupRec (docx_replacements data hoje) (s2l "{documento_paciente_formatado}") =
      lookupRec (html_replacements data logo de) (s2l "{documento_paciente_formatado}") ∧
    lookupRec (docx_replacements data hoje) (s2l "{qtd_dias_atestado}") =
      lookupRec (html_replacements data logo de) (s2l "{qtd_dias_atestado}") ∧
    lookupRec (docx_replacements data hoje) (s2l "\x7bcódigo_cid\x7d") =
      lookupRec (html_replacements data logo de) (s2l "{codigo_cid}") ∧
    lookupRec (docx_replacements data hoje) (s2l "{uf_crm_medico}") =
      lookupRec (html_replacements data logo de) (s2l "{uf_crm_medico}") ∧
    lookupRec (docx_replacements data hoje) (s2l "{crm__medico}") =
      lookupRec (html_replacements data logo de) (s2l "{crm_medico}") := by
  have hall : ∀ c ∈ campos_obrigatorios, campo_presente data c = true := by
    unfold validar_dados_documento at h
    exact List.all_eq_true.mp (Bool.and_eq_true_iff.mp h).1
  have htipo : pyStrip (getStr data (s2l "tipo_registro_medico")) ≠ [] :=
    campo_nao_vazio (hall _ (by decide))
  have hcrm : pyStrip (getStr data (s2l "crm__medico")) ≠ [] :=
    campo_nao_vazio (hall _ (by decide))
  simp only [docx_replacements, html_replacements]
  refine ⟨?_, ?_, ?_, ?_, ?_, ?_⟩
  all_goals repeat rw [lookupRec_cons_of_ne (by decide)]
  all_goals rw [lookupRec_cons_self]
  all_goals repeat rw [lookupRec_cons_of_ne (by decide)]
  all_goals rw [lookupRec_cons_self]
  rw [if_pos htipo, if_pos hcrm, if_pos htipo]
  have hj : joinSpace ([pyStrip (getStr data (s2l "tipo_registro_medico"))] ++
      [pyStrip (getStr data (s2l "crm__medico"))]) =
      pyStrip (getStr data (s2l "tipo_registro_medico")) ++
        ' ' :: pyStrip (getStr data (s2l "crm__medico")) := by
    simp [joinSpace]
  rw [hj, if_pos (by simp)]

/-- Witness for the amended C9 at a concrete valid record. -/

theorem campos_comuns_iguais_witness :
    lookupRec (docx_replacements c9_dados (s2l "12/10/2026")) (s2l "{nome_paciente}") =
      lookupRec (html_replacements c9_dados (s2l "L") (s2l "D")) (s2l "{nome_paciente}") ∧
    lookupRec (docx_replacements c9_dados (s2l "12/10/2026")) (s2l "{documento_paciente_formatado}") =
      lookupRec (html_replacements c9_dados (s2l "L") (s2l "D")) (s2l "{documento_paciente_formatado}") ∧
    lookupRec (docx_replacements c9_dados (s2l "12/10/2026")) (s2l "{qtd_dias_atestado}") =
      lookupRec (html_replacements c9_dados (s2l "L") (s2l "D")) (s2l "{qtd_dias_atestado}") ∧
    lookupRec (docx_replacements c9_dados (s2l "12/10/2026")) (s2l "\x7bcódigo_cid\x7d") =
      lookupRec (html_replacements c9_dados (s2l "L") (s2l "D")) (s2l "{codigo_cid}") ∧
    lookupRec (docx_replacements c9_dados (s2l "12/10/2026")) (s2l "{uf_crm_medico}") =
      lookupRec (html_replacements c9_dados (s2l "L") (s2l "D")) (s2l "{uf_crm_medico}") ∧
    lookupRec (docx_replacements c9_dados (s2l "12/10/2026")) (s2l "{crm__medico}") =
      lookupRec (html_replacements c9_dados (s2l "L") (s2l "D")) (s2l "{crm_medico}") :=
  campos_comuns_iguais c9_dados (s2l "12/10/2026") (s2l "L") (s2l "D") (by decide)

/-- Counterexample to C9 as stated: on a valid record whose physician name
carries the title `Dr.`, the DOCX map renders the physician name without
the title while the HTML map keeps it, so the two targets do not show
identical content for that field. -/

theorem nome_medico_diverge_docx_html :
    validar_dados_documento c9_dados = true ∧
    lookupRec (docx_replacements c9_dados (s2l "12/10/2026")) (s2l "{nome_medico}")
      = some (s2l "Maria Santos") ∧
    lookupRec (html_replacements c9_dados (s2l "L") (s2l "D")) (s2l "{nome_medico}")
      = some (s2l "Dr. Maria Santos") := by decide
